import Mathlib

/-!
Verification of the camera-stream WebRTC demos.

This file gives a shallow embedding of the application code in
`src/camera_stream.py` and `src/camera_stream_pose.py` and proves the
specification claims about it.  External library calls (OpenCV capture,
MediaPipe detection/drawing, aiortc negotiation) are modelled as parameters or
abstract outcomes; the application's own control flow is translated
line by line.  Machine effects are made explicit: Python exceptions become
`Except`, the per-request mutation of the global `pcs` set becomes explicit
state passing, and Python's calling convention for `async def` functions
(a bare call creates a coroutine object without running its body) is modelled
by a `PyCoroutine` value that only acts when awaited.
-/

namespace CameraStream

/-- Exact rational time base, mirroring Python `fractions.Fraction`.  The code
only ever constructs `Fraction(1, 30)`, which is already in lowest terms, so a
numerator/denominator pair is a faithful model. -/
structure PyFraction where
  num : Int
  den : Nat
deriving DecidableEq

/-- The value `Fraction(1, 30)` assigned to `self.time_base` in both variants
(camera_stream.py line 35, camera_stream_pose.py line 50). -/
def frac_1_30 : PyFraction := { num := 1, den := 30 }

/-- The counter/time-base attributes of a `VideoTransformTrack`
(`self.pts`, `self.time_base`). -/
structure TrackState where
  pts : Nat
  time_base : PyFraction
deriving DecidableEq

/-- Track state right after `__init__`: `self.time_base = Fraction(1, 30)`,
`self.pts = 0` (camera_stream.py lines 35-36, camera_stream_pose.py
lines 50-51). -/
def initTrackState : TrackState := { pts := 0, time_base := frac_1_30 }

/-- Properties set on the capture by `self.cap.set(...)` in `__init__`:
`cv2.CAP_PROP_FRAME_WIDTH`, `cv2.CAP_PROP_FRAME_HEIGHT`, `cv2.CAP_PROP_FPS`. -/
inductive CapProp
  | frameWidth
  | frameHeight
  | fps
deriving DecidableEq

/-- State of a `cv2.VideoCapture` handle: whether the device opened, and the
requested configuration values. -/
structure Cv2Capture where
  opened : Bool
  width : Nat
  height : Nat
  fps : Nat
deriving DecidableEq

/-- Model of `cv2.VideoCapture(0)`: the handle reports `opened` according to
device availability and starts with device-native (arbitrary) configuration
values `w0`, `h0`, `f0`. -/
def videoCaptureOpen (deviceAvailable : Bool) (w0 h0 f0 : Nat) : Cv2Capture :=
  { opened := deviceAvailable, width := w0, height := h0, fps := f0 }

/-- Model of `cap.set(prop, v)`: records the requested configuration value. -/
def capSet (c : Cv2Capture) : CapProp → Nat → Cv2Capture
  | CapProp.frameWidth, v => { c with width := v }
  | CapProp.frameHeight, v => { c with height := v }
  | CapProp.fps, v => { c with fps := v }

/-- Exception text of `raise RuntimeError("No se pudo abrir la cámara")`
(camera_stream.py line 32, camera_stream_pose.py line 33). -/
def camErrMsg : String := "No se pudo abrir la cámara"

/-- The camera part of `VideoTransformTrack.__init__`, identical in both
variants (camera_stream.py lines 24-36, camera_stream_pose.py lines 27-33 and
50-51): open device 0, request 640x480 at 30 fps, raise `RuntimeError` if the
device is not opened, otherwise initialise `time_base` and `pts`.
`Except.error` models the raised exception; there is no retry. -/
def trackInitCamera (deviceAvailable : Bool) (w0 h0 f0 : Nat) :
    Except String (Cv2Capture × TrackState) :=
  let cap := videoCaptureOpen deviceAvailable w0 h0 f0
  let cap := capSet cap CapProp.frameWidth 640
  let cap := capSet cap CapProp.frameHeight 480
  let cap := capSet cap CapProp.fps 30
  if cap.opened then
    Except.ok (cap, { pts := 0, time_base := frac_1_30 })
  else
    Except.error camErrMsg

/-- The external collaborators of `process_frame` in camera_stream_pose.py,
kept abstract: `bgr2rgb` is `cv2.cvtColor(-, cv2.COLOR_BGR2RGB)`;
`poseProcess f` is `self.pose.process(f).pose_landmarks` (`none` when no pose
is detected); `handsProcess f` is `self.hands.process(f).multi_hand_landmarks`
(`none` when no hands are detected); `drawPose` / `drawHand` are the
`mp_drawing.draw_landmarks` calls, which mutate the BGR frame in place —
modelled functionally as returning the mutated frame. -/
structure AnnotCtx (F L H : Type) where
  bgr2rgb : F → F
  poseProcess : F → Option L
  handsProcess : F → Option (List H)
  drawPose : F → L → F
  drawHand : F → H → F

/-- `VideoTransformTrack.process_frame` (camera_stream_pose.py lines 53-80):
convert the frame to RGB once, run the pose pass on the RGB copy and draw onto
the original frame if a pose was found, then run the hands pass on the same
RGB copy and draw each detected hand onto the frame, returning the frame. -/
def process_frame {F L H : Type} (c : AnnotCtx F L H) (frame : F) : F :=
  let rgb_frame := c.bgr2rgb frame
  let frame1 :=
    match c.poseProcess rgb_frame with
    | some lm => c.drawPose frame lm
    | none => frame
  let frame2 :=
    match c.handsProcess rgb_frame with
    | some hls => hls.foldl c.drawHand frame1
    | none => frame1
  frame2

/-- Instrumented copy of `process_frame` that additionally returns the two
values actually passed to the detector calls: the argument of
`self.pose.process(rgb_frame)` (line 58) and the argument of
`self.hands.process(rgb_frame)` (line 69).  Both are the single `rgb_frame`
computed at line 55, before any overlay is drawn. -/
def process_frame_traced {F L H : Type} (c : AnnotCtx F L H) (frame : F) :
    F × (F × F) :=
  let rgb_frame := c.bgr2rgb frame
  let poseInput := rgb_frame
  let frame1 :=
    match c.poseProcess poseInput with
    | some lm => c.drawPose frame lm
    | none => frame
  let handsInput := rgb_frame
  let frame2 :=
    match c.handsProcess handsInput with
    | some hls => hls.foldl c.drawHand frame1
    | none => frame1
  (frame2, (poseInput, handsInput))

/-- Result of `self.cap.read()`: `fail` is `ret == False`, `ok frame` is a
successful read of a raw BGR frame. -/
inductive ReadResult (F : Type)
  | fail
  | ok (frame : F)
deriving DecidableEq

/-- The `av.VideoFrame` produced by a successful `recv`: pixel data plus the
`pts` and `time_base` attributes assigned by the code. -/
structure VFrame (F : Type) where
  data : F
  pts : Nat
  time_base : PyFraction
deriving DecidableEq

/-- Common shape of `VideoTransformTrack.recv` in both variants, parameterised
by the per-frame transformation applied to a successfully read frame: read,
return `None` (here `none`) on failure without touching any state; otherwise
transform the frame, stamp it with the current `pts` and the track's
`time_base`, then increment `pts`.  The result is a value, not an exception:
the failure path does not raise. -/
def recvGen {F : Type} (transform : F → F) (st : TrackState) (r : ReadResult F) :
    Option (VFrame F) × TrackState :=
  match r with
  | ReadResult.fail => (none, st)
  | ReadResult.ok frame =>
    let out := transform frame
    let video_frame : VFrame F :=
      { data := out, pts := st.pts, time_base := st.time_base }
    (some video_frame, { st with pts := st.pts + 1 })

/-- `recv` of camera_stream.py (lines 38-52): the transformation is only the
BGR-to-RGB conversion of line 46. -/
def recvBasic {F : Type} (bgr2rgb : F → F) :
    TrackState → ReadResult F → Option (VFrame F) × TrackState :=
  recvGen bgr2rgb

/-- `recv` of camera_stream_pose.py (lines 82-99): the transformation is
`process_frame` followed by the BGR-to-RGB conversion of line 93. -/
def recvPose {F L H : Type} (c : AnnotCtx F L H) :
    TrackState → ReadResult F → Option (VFrame F) × TrackState :=
  recvGen (fun frame => c.bgr2rgb (process_frame c frame))

/-- Iterated `recv`: runs `recvGen` over a list of device read results,
collecting the returned value of each invocation. -/
def recvRun {F : Type} (transform : F → F) :
    TrackState → List (ReadResult F) → List (Option (VFrame F)) × TrackState
  | st, [] => ([], st)
  | st, r :: rs =>
    let step := recvGen transform st r
    let rest := recvRun transform step.2 rs
    (step.1 :: rest.1, rest.2)

/-- Iterated `recv` of the camera_stream.py variant. -/
def recvBasicRun {F : Type} (bgr2rgb : F → F) :
    TrackState → List (ReadResult F) → List (Option (VFrame F)) × TrackState :=
  recvRun bgr2rgb

/-- Iterated `recv` of the camera_stream_pose.py variant. -/
def recvPoseRun {F L H : Type} (c : AnnotCtx F L H) :
    TrackState → List (ReadResult F) → List (Option (VFrame F)) × TrackState :=
  recvRun (fun frame => c.bgr2rgb (process_frame c frame))

/-- Number of successful device reads in a read sequence. -/
def countOk {F : Type} : List (ReadResult F) → Nat
  | [] => 0
  | ReadResult.fail :: rs => countOk rs
  | ReadResult.ok _ :: rs => countOk rs + 1

/-- The two fields the handler reads from the JSON body of a POST /offer
request: `params["sdp"]` and `params["type"]`.  `none` models a missing key,
whose subscript access raises `KeyError`.  The field `typ` stands for the JSON
key named `type`. -/
structure OfferParams where
  sdp : Option String
  typ : Option String
deriving DecidableEq

/-- Outcome of the steps inside the handler's try-block
(`VideoTransformTrack()`, `pc.addTrack`, `setRemoteDescription`,
`createAnswer`, `setLocalDescription`): either they all succeed, yielding the
local description returned in the HTTP 200 body, or one of them raises an
exception whose text is `msg`.  These steps call into aiortc and into the
track constructor, so their outcome is a parameter of the model. -/
inductive NegotiationStep
  | success (answerSdp answerType : String)
  | raises (msg : String)
deriving DecidableEq

/-- What the `offer` handler produces: a 200 JSON response carrying the local
description, an explicit `web.Response(status=500, text=str(e))`, or an
exception that escapes the handler (which aiohttp converts into a
500 Internal Server Error response; the process keeps serving). -/
inductive HandlerOutcome
  | answerResponse (sdp typ : String)
  | errorResponse (body : String)
  | unhandledError (msg : String)
deriving DecidableEq

/-- HTTP status of the response the remote peer observes for each handler
outcome; an unhandled handler exception is turned into a 500 response by
aiohttp, not into a process crash. -/
def httpStatus : HandlerOutcome → Nat
  | HandlerOutcome.answerResponse _ _ => 200
  | HandlerOutcome.errorResponse _ => 500
  | HandlerOutcome.unhandledError _ => 500

/-- The `offer` handler (camera_stream.py lines 58-90, camera_stream_pose.py
lines 111-140) as a state transformer on the global `pcs` set, modelled as a
`Finset Nat` of peer-connection identities; `pcId` is the identity of the
`RTCPeerConnection` this request constructs.  Steps in source order:
`await request.json()` (raises on a malformed body, modelled by
`reqBody = none`), `params["sdp"]` then `params["type"]` (each raises
`KeyError` when missing) — all before the peer connection exists; then
`pc = RTCPeerConnection()` and `pcs.add(pc)`; then the try-block, whose
`except` branch returns a 500 response with the exception text and does not
remove `pc` from `pcs`. -/
def offerHandler (reqBody : Option OfferParams) (pcId : Nat)
    (negotiation : NegotiationStep) (pcs : Finset Nat) :
    HandlerOutcome × Finset Nat :=
  match reqBody with
  | none => (HandlerOutcome.unhandledError "JSONDecodeError", pcs)
  | some params =>
    match params.sdp with
    | none => (HandlerOutcome.unhandledError "KeyError: sdp", pcs)
    | some _ =>
      match params.typ with
      | none => (HandlerOutcome.unhandledError "KeyError: type", pcs)
      | some _ =>
        let pcs1 := insert pcId pcs
        match negotiation with
        | NegotiationStep.raises msg => (HandlerOutcome.errorResponse msg, pcs1)
        | NegotiationStep.success ansSdp ansType =>
          (HandlerOutcome.answerResponse ansSdp ansType, pcs1)

/-- Composition of track construction with the rest of the try-block:
`VideoTransformTrack()` is the first statement of the try-block, so when the
camera cannot be opened its `RuntimeError` is the negotiation outcome; when
construction succeeds the outcome is that of the remaining aiortc calls. -/
def negotiateFromInit (ini : Except String (Cv2Capture × TrackState))
    (rest : NegotiationStep) : NegotiationStep :=
  match ini with
  | Except.error msg => NegotiationStep.raises msg
  | Except.ok _ => rest

/-- Resource-release calls that `__del__` can perform. -/
inductive Effect
  | capRelease
  | poseClose
  | handsClose
deriving DecidableEq

/-- Attribute state of a `VideoTransformTrack` object at teardown time.  An
outer `none` means the attribute was never assigned (construction failed
before reaching it, so `hasattr` is false); for `cap` the inner `Option`
distinguishes `self.cap is None` from a real handle, matching the guard
`hasattr(self, 'cap') and self.cap is not None`. -/
structure TrackObj (C P H : Type) where
  cap : Option (Option C)
  pose : Option P
  hands : Option H

/-- `__del__` of camera_stream.py (lines 54-56): release the capture handle
when the `cap` attribute exists and is not `None`, else do nothing. -/
def dunderDelBasic {C : Type} (cap : Option (Option C)) : List Effect :=
  match cap with
  | some (some _) => [Effect.capRelease]
  | _ => []

/-- `__del__` of camera_stream_pose.py (lines 101-107): the same capture
guard, then `self.pose.close()` when the `pose` attribute exists, then
`self.hands.close()` when the `hands` attribute exists. -/
def dunderDelPose {C P H : Type} (o : TrackObj C P H) : List Effect :=
  dunderDelBasic o.cap
    ++ (match o.pose with
        | some _ => [Effect.poseClose]
        | none => [])
    ++ (match o.hands with
        | some _ => [Effect.handsClose]
        | none => [])

/-- Python attribute access: reading an attribute that was never assigned
raises `AttributeError`. -/
def getattrOrRaise {α : Type} (attr : Option α) : Except String α :=
  match attr with
  | some v => Except.ok v
  | none => Except.error "AttributeError"

/-- `__del__` of camera_stream_pose.py with attribute accesses made explicit:
each access is reached only behind its `hasattr` guard, so the `Except` never
errors — this is the no-crash content of the teardown on partially
constructed objects. -/
def dunderDelPoseChecked {C P H : Type} (o : TrackObj C P H) :
    Except String (List Effect) := do
  let capEffects ←
    if o.cap.isSome then do
      let capv ← getattrOrRaise o.cap
      match capv with
      | some _ => pure [Effect.capRelease]
      | none => pure ([] : List Effect)
    else
      pure ([] : List Effect)
  let poseEffects ←
    if o.pose.isSome then do
      let _ ← getattrOrRaise o.pose
      pure [Effect.poseClose]
    else
      pure ([] : List Effect)
  let handsEffects ←
    if o.hands.isSome then do
      let _ ← getattrOrRaise o.hands
      pure [Effect.handsClose]
    else
      pure ([] : List Effect)
  pure (capEffects ++ poseEffects ++ handsEffects)

/-- One live WebRTC session as seen at shutdown: whether its
`RTCPeerConnection` has been closed (transports torn down, tracks stopped,
resources released). -/
structure PeerSession where
  closed : Bool
deriving DecidableEq

/-- The body of aiortc's `RTCPeerConnection.close`, which is declared
`async def close(self)`: once actually run, it closes the session. -/
def closeBody (pc : PeerSession) : PeerSession := { pc with closed := true }

/-- A Python coroutine object: produced by calling an `async def` function;
its body runs only when the coroutine is awaited or scheduled, never merely
because it was created. -/
structure PyCoroutine (σ : Type) where
  body : σ → σ

/-- Calling an `async def` function without `await`: packages the body into a
coroutine object and performs none of its effects. -/
def callAsync {σ : Type} (f : σ → σ) : PyCoroutine σ := { body := f }

/-- Awaiting a coroutine runs its body. -/
def awaitCoro {σ : Type} (co : PyCoroutine σ) (s : σ) : σ := co.body s

/-- The statement `pc.close()` as written in the `finally` block of
`__main__` (camera_stream.py line 249, camera_stream_pose.py line 298):
`close` is async, the call is not awaited, so the session is returned
unchanged and the fresh coroutine object is simply dropped. -/
def closeCallStatement (pc : PeerSession) : PeerSession × PyCoroutine PeerSession :=
  (pc, callAsync closeBody)

/-- The whole `finally` block: `for pc in pcs: pc.close()`.  Each iteration
keeps only the unchanged session; the coroutines are discarded. -/
def shutdownFinally (pcs : List PeerSession) : List PeerSession :=
  pcs.map (fun pc => (closeCallStatement pc).1)

/-- Concrete annotator for witnesses: detects nothing. -/
def ctxNone : AnnotCtx Nat Nat Nat :=
  { bgr2rgb := fun f => f + 1
  , poseProcess := fun _ => none
  , handsProcess := fun _ => none
  , drawPose := fun f _ => f * 2
  , drawHand := fun f _ => f * 3 }

/-- Concrete annotator for witnesses: same RGB conversion as `ctxNone` but a
different pose detector and different drawing functions. -/
def ctxPoseOnly : AnnotCtx Nat Nat Nat :=
  { bgr2rgb := fun f => f + 1
  , poseProcess := fun _ => some 0
  , handsProcess := fun _ => none
  , drawPose := fun f _ => f * 5
  , drawHand := fun f _ => f * 7 }

/-- Concrete fully constructed track object for witnesses. -/
def trackObjFull : TrackObj Unit Unit Unit :=
  { cap := some (some ()), pose := some (), hands := some () }

/-- Running `recv` over any read sequence: the `pts` stamps of the successful
outputs form the consecutive range starting at the initial counter, the final
counter is the initial one plus the number of successful reads, and the time
base is never changed and is stamped unchanged onto every output. -/
theorem recvRun_spec {F : Type} (t : F → F) (rs : List (ReadResult F))
    (st : TrackState) :
    ((recvRun t st rs).1.filterMap id).map VFrame.pts
        = List.range' st.pts (countOk rs)
  ∧ (recvRun t st rs).2.pts = st.pts + countOk rs
  ∧ (recvRun t st rs).2.time_base = st.time_base
  ∧ ∀ v ∈ (recvRun t st rs).1.filterMap id, v.time_base = st.time_base := by
  induction rs generalizing st with
  | nil =>
    simp [recvRun, countOk]
  | cons r rs ih =>
    cases r with
    | fail =>
      have h := ih st
      simpa [recvRun, recvGen, countOk] using h
    | ok f =>
      have h := ih { st with pts := st.pts + 1 }
      refine ⟨?_, ?_, ?_, ?_⟩
      · simpa [recvRun, recvGen, countOk, List.range'_succ] using h.1
      · have := h.2.1
        simp [recvRun, recvGen, countOk] at this ⊢
        omega
      · simpa [recvRun, recvGen, countOk] using h.2.2.1
      · intro v hv
        simp [recvRun, recvGen] at hv
        rcases hv with hv | hv
        · subst hv; rfl
        · exact h.2.2.2 v (by simpa using hv)

/-- Claim C2 (confirmed): for any sequence of `recv` invocations with
arbitrarily many failed reads interleaved, in both variants, the `pts` stamps
of the successful invocations are exactly `0, 1, 2, ...` in order — the Nth
successful invocation (N at least 1) returns a frame with `pts = N - 1`, the
counter starts at 0, grows by exactly 1 per successful emission, and never
resets or skips. -/
theorem recv_pts_sequence {F L H : Type} (g : F → F) (c : AnnotCtx F L H)
    (rs : List (ReadResult F)) :
    ((recvBasicRun g initTrackState rs).1.filterMap id).map VFrame.pts
        = List.range (countOk rs)
  ∧ ((recvPoseRun c initTrackState rs).1.filterMap id).map VFrame.pts
        = List.range (countOk rs) := by
  have h1 := (recvRun_spec g rs initTrackState).1
  have h2 :=
    (recvRun_spec (fun frame => c.bgr2rgb (process_frame c frame)) rs
      initTrackState).1
  rw [List.range_eq_range']
  exact ⟨h1, h2⟩

/-- Claim C5 (confirmed): in both variants, a `recv` invocation whose device
read fails returns the explicit unavailable value `none` — the embedding of
`return None` — without raising (the function is total and its failure path
produces a value, not an `Except`-style error), and the failure is non-fatal
to the track: the state is unchanged and a subsequent run behaves exactly as
if the failed tick had not happened, leaving skip-or-terminate to the
caller. -/
theorem recv_read_failure_returns_none {F L H : Type} (g : F → F)
    (c : AnnotCtx F L H) (st : TrackState) (rs : List (ReadResult F)) :
    recvBasic g st ReadResult.fail = (none, st)
  ∧ recvPose c st ReadResult.fail = (none, st)
  ∧ recvBasicRun g st (ReadResult.fail :: rs)
      = ((none : Option (VFrame F)) :: (recvBasicRun g st rs).1,
         (recvBasicRun g st rs).2)
  ∧ recvPoseRun c st (ReadResult.fail :: rs)
      = ((none : Option (VFrame F)) :: (recvPoseRun c st rs).1,
         (recvPoseRun c st rs).2) := by
  refine ⟨rfl, rfl, ?_, ?_⟩ <;>
    simp [recvBasicRun, recvPoseRun, recvRun, recvGen]

/-- Claim C7 (confirmed): in both variants, every frame returned by a
successful `recv` invocation over the life of the track carries the fixed
time base `Fraction(1, 30)`, independent of the read sequence and hence of
any wall-clock timing between calls. -/
theorem recv_time_base_constant {F L H : Type} (g : F → F)
    (c : AnnotCtx F L H) (rs : List (ReadResult F)) (v : VFrame F) :
    (v ∈ (recvBasicRun g initTrackState rs).1.filterMap id →
      v.time_base = frac_1_30)
  ∧ (v ∈ (recvPoseRun c initTrackState rs).1.filterMap id →
      v.time_base = frac_1_30) := by
  constructor
  · intro hv
    exact (recvRun_spec g rs initTrackState).2.2.2 v hv
  · intro hv
    exact
      (recvRun_spec (fun frame => c.bgr2rgb (process_frame c frame)) rs
        initTrackState).2.2.2 v hv

/-- Witness for `recv_time_base_constant`: a concrete run with one successful
read emits a frame, and the theorem applies to it. -/
theorem recv_time_base_witness :
    ({ data := 1, pts := 0, time_base := frac_1_30 } : VFrame Nat).time_base
      = frac_1_30 :=
  (recv_time_base_constant (fun f => f + 1) ctxNone [ReadResult.ok 0]
      { data := 1, pts := 0, time_base := frac_1_30 }).1
    (by decide)

/-- Claim C4 (confirmed): when the pose detector finds no pose landmarks and
the hand detector finds no hand landmarks on the RGB copy of a raw frame,
`process_frame` returns the frame pixel-identical to its input; and the two
passes are independent: with only a pose detected the output carries only the
pose overlay, with only hands detected the output carries only the hand
overlays. -/
theorem process_frame_identity_and_independence {F L H : Type}
    (c : AnnotCtx F L H) (frame : F) :
    (c.poseProcess (c.bgr2rgb frame) = none →
      c.handsProcess (c.bgr2rgb frame) = none →
      process_frame c frame = frame)
  ∧ (∀ lm, c.poseProcess (c.bgr2rgb frame) = some lm →
      c.handsProcess (c.bgr2rgb frame) = none →
      process_frame c frame = c.drawPose frame lm)
  ∧ (∀ hls, c.poseProcess (c.bgr2rgb frame) = none →
      c.handsProcess (c.bgr2rgb frame) = some hls →
      process_frame c frame = hls.foldl c.drawHand frame) := by
  refine ⟨?_, ?_, ?_⟩
  · intro hp hh
    simp [process_frame, hp, hh]
  · intro lm hp hh
    simp [process_frame, hp, hh]
  · intro hls hp hh
    simp [process_frame, hp, hh]

/-- Witness for `process_frame_identity_and_independence`: with a concrete
annotator that detects nothing, a concrete frame passes through unchanged. -/
theorem process_frame_identity_witness : process_frame ctxNone 4 = 4 :=
  (process_frame_identity_and_independence ctxNone 4).1 rfl rfl

/-- Claim C10 (confirmed): both detection passes consume the single RGB copy
made before any overlay is drawn, so two runs whose raw frames convert to the
same RGB copy feed identical inputs to the pose pass and to the hands pass,
even under entirely different pose detectors and drawing functions — drawing
the pose overlay cannot change what the hand pass is given to detect on.  The
traced evaluator agrees with `process_frame` and records the hands-pass input
as exactly the RGB conversion of the raw frame. -/
theorem hands_input_independent_of_pose_overlay {F L H : Type}
    (c₁ c₂ : AnnotCtx F L H) (f₁ f₂ : F)
    (hrgb : c₁.bgr2rgb f₁ = c₂.bgr2rgb f₂) :
    (process_frame_traced c₁ f₁).2 = (process_frame_traced c₂ f₂).2
  ∧ (process_frame_traced c₁ f₁).2.2 = c₁.bgr2rgb f₁
  ∧ (process_frame_traced c₁ f₁).1 = process_frame c₁ f₁ := by
  refine ⟨?_, rfl, rfl⟩
  show (c₁.bgr2rgb f₁, c₁.bgr2rgb f₁) = (c₂.bgr2rgb f₂, c₂.bgr2rgb f₂)
  rw [hrgb]

/-- Witness for `hands_input_independent_of_pose_overlay`: two concrete
annotators sharing the RGB conversion but differing in pose detection and
drawing, applied to the same raw frame. -/
theorem hands_input_independent_witness :
    (process_frame_traced ctxNone 4).2 = (process_frame_traced ctxPoseOnly 4).2
  ∧ (process_frame_traced ctxNone 4).2.2 = ctxNone.bgr2rgb 4
  ∧ (process_frame_traced ctxNone 4).1 = process_frame ctxNone 4 :=
  hands_input_independent_of_pose_overlay ctxNone ctxPoseOnly 4 4 rfl

/-- Claim C1 counterexample: a well-formed /offer request whose negotiation
raises an exception gets the 500 response with the exception text, yet the
peer connection created for it (identity 7) is still a member of the
live-session collection after the handler returns — `pcs.add(pc)` runs before
the try-block and the except branch never removes it — refuting the part of
the claim that says the collection contains no entry for that connection. -/
theorem offer_failure_retains_session_cex :
    (offerHandler (some { sdp := some "v=0", typ := some "offer" }) 7
        (NegotiationStep.raises "boom") ∅).1
      = HandlerOutcome.errorResponse "boom"
  ∧ 7 ∈ (offerHandler (some { sdp := some "v=0", typ := some "offer" }) 7
        (NegotiationStep.raises "boom") ∅).2 :=
  ⟨rfl, Finset.mem_insert_self 7 ∅⟩

/-- Claim C1 (corrected): for every /offer request with both fields present
whose negotiation (track construction, remote-description application, answer
creation, or local-description setting) raises, the handler returns an HTTP
500 response whose body is the exception text — but the peer connection
created by the failed request remains in the process-wide live-session
collection: the resulting collection is exactly the old one with that
connection inserted, and the connection is a member of it. -/
theorem offer_failure_http500_and_session_retained (s t msg : String)
    (pcId : Nat) (pcs : Finset Nat) :
    offerHandler (some { sdp := some s, typ := some t }) pcId
        (NegotiationStep.raises msg) pcs
      = (HandlerOutcome.errorResponse msg, insert pcId pcs)
  ∧ httpStatus (offerHandler (some { sdp := some s, typ := some t }) pcId
        (NegotiationStep.raises msg) pcs).1 = 500
  ∧ pcId ∈ (offerHandler (some { sdp := some s, typ := some t }) pcId
        (NegotiationStep.raises msg) pcs).2 :=
  ⟨rfl, rfl, Finset.mem_insert_self pcId pcs⟩

/-- Claim C6 (confirmed): a /offer request whose body is not valid JSON or
lacks the `sdp` or the `type` field makes the handler raise before the peer
connection is created; aiohttp converts the escaped exception into a
server-error (500) response rather than crashing the process, and the
live-session collection is left exactly as it was — no entry is added. -/
theorem offer_malformed_request_500_no_entry (reqBody : Option OfferParams)
    (pcId : Nat) (negotiation : NegotiationStep) (pcs : Finset Nat)
    (h : reqBody = none
      ∨ ∃ p, reqBody = some p ∧ (p.sdp = none ∨ p.typ = none)) :
    httpStatus (offerHandler reqBody pcId negotiation pcs).1 = 500
  ∧ (offerHandler reqBody pcId negotiation pcs).2 = pcs := by
  rcases h with h | ⟨p, hp, hfield⟩
  · subst h
    exact ⟨rfl, rfl⟩
  · subst hp
    obtain ⟨s, t⟩ := p
    rcases hfield with hs | ht
    · rcases s with _ | sv
      · exact ⟨rfl, rfl⟩
      · exact absurd hs (by simp)
    · rcases s with _ | sv
      · exact ⟨rfl, rfl⟩
      · rcases t with _ | tv
        · exact ⟨rfl, rfl⟩
        · exact absurd ht (by simp)

/-- Witness for `offer_malformed_request_500_no_entry`: a request whose body
is not valid JSON. -/
theorem offer_malformed_request_witness :
    httpStatus (offerHandler none 0 (NegotiationStep.raises "x") ∅).1 = 500
  ∧ (offerHandler none 0 (NegotiationStep.raises "x") ∅).2 = ∅ :=
  offer_malformed_request_500_no_entry none 0 (NegotiationStep.raises "x") ∅
    (Or.inl rfl)

/-- Claim C8 (confirmed): when the capture device cannot be opened, track
construction stops with the `RuntimeError` — `Except.error`, no track value
is produced and nothing retries — and a well-formed /offer request whose
try-block starts with that construction returns the 500 response carrying the
exception text; when the device does open, construction succeeds with the
capture configured to 640x480 at 30 frames per second and the counter state
initialised. -/
theorem track_init_device_open (w0 h0 f0 : Nat) (s t : String) (pcId : Nat)
    (pcs : Finset Nat) (rest : NegotiationStep) :
    trackInitCamera false w0 h0 f0 = Except.error camErrMsg
  ∧ trackInitCamera true w0 h0 f0
      = Except.ok
          ({ opened := true, width := 640, height := 480, fps := 30 },
           initTrackState)
  ∧ offerHandler (some { sdp := some s, typ := some t }) pcId
        (negotiateFromInit (trackInitCamera false w0 h0 f0) rest) pcs
      = (HandlerOutcome.errorResponse camErrMsg, insert pcId pcs) :=
  ⟨rfl, rfl, rfl⟩

/-- Claim C9 (confirmed): one `__del__` invocation (Python runs it at most
once per object) releases the camera handle at most once — exactly once when
the `cap` attribute holds a handle — and in the pose variant closes the pose
detector and the hand detector at most once each, exactly once when the
corresponding attribute was assigned; the guarded accesses never raise, so a
constructed-but-never-started or partially constructed object (attributes not
yet assigned) tears down without a crash, releasing nothing it never
acquired.  The last two conjuncts state the same for the basic variant's
`__del__`. -/
theorem dunder_del_release_once {C P H : Type} (o : TrackObj C P H) :
    dunderDelPoseChecked o = Except.ok (dunderDelPose o)
  ∧ (dunderDelPose o).count Effect.capRelease ≤ 1
  ∧ (dunderDelPose o).count Effect.poseClose ≤ 1
  ∧ (dunderDelPose o).count Effect.handsClose ≤ 1
  ∧ (∀ ch, o.cap = some (some ch) →
      (dunderDelPose o).count Effect.capRelease = 1)
  ∧ (∀ pv, o.pose = some pv →
      (dunderDelPose o).count Effect.poseClose = 1)
  ∧ (∀ hv, o.hands = some hv →
      (dunderDelPose o).count Effect.handsClose = 1)
  ∧ (o.cap = none → (dunderDelPose o).count Effect.capRelease = 0)
  ∧ (dunderDelBasic o.cap).count Effect.capRelease ≤ 1
  ∧ (∀ ch, o.cap = some (some ch) →
      dunderDelBasic o.cap = [Effect.capRelease]) := by
  obtain ⟨cap, pose, hands⟩ := o
  rcases cap with _ | cv <;> [skip; rcases cv with _ | chv] <;>
    rcases pose with _ | pv <;> rcases hands with _ | hv <;>
    simp [dunderDelPose, dunderDelBasic, dunderDelPoseChecked, getattrOrRaise,
      Bind.bind, Except.bind, Pure.pure, Except.pure,
      List.count_cons, List.count_nil]

/-- Witness for `dunder_del_release_once`: a fully constructed track object
releases the camera once and closes each detector once. -/
theorem dunder_del_release_once_witness :
    (dunderDelPose trackObjFull).count Effect.capRelease = 1
  ∧ (dunderDelPose trackObjFull).count Effect.poseClose = 1
  ∧ (dunderDelPose trackObjFull).count Effect.handsClose = 1 :=
  ⟨(dunder_del_release_once trackObjFull).2.2.2.2.1 () rfl,
   (dunder_del_release_once trackObjFull).2.2.2.2.2.1 () rfl,
   (dunder_del_release_once trackObjFull).2.2.2.2.2.2.1 () rfl⟩

/-- Claim C3 (code_bug): the `finally` block of `__main__` runs
`for pc in pcs: pc.close()`, but `RTCPeerConnection.close` is an `async def`
function and the call is never awaited in the loop — each iteration only
creates a coroutine object and discards it.  Evaluating the embedded shutdown
shows that every session, in particular each of two live ones, is left
unclosed (no resources released) before the process exits, while awaiting the
very coroutine the statement creates would have closed the session — the
claim describes the evident intent, the code never runs the close bodies. -/
theorem shutdown_close_never_awaited :
    (∀ sessions : List PeerSession, shutdownFinally sessions = sessions)
  ∧ shutdownFinally [{ closed := false }, { closed := false }]
      = [{ closed := false }, { closed := false }]
  ∧ ((shutdownFinally [{ closed := false }, { closed := false }]).filter
      (fun pc => pc.closed)).length = 0
  ∧ awaitCoro (closeCallStatement { closed := false }).2 { closed := false }
      = { closed := true } := by
  refine ⟨?_, rfl, rfl, rfl⟩
  intro sessions
  simp [shutdownFinally, closeCallStatement]

end CameraStream
